import Mathlib

/-!
Verification of the x402 marketplace payment gateway.

This file gives a shallow embedding of the parts of the repository that the
claims concern:

* the on-chain contract trio `X402PaymentProcessor.sol`, `X402Escrow.sol`,
  `X402ServiceRegistry.sol` and the `MockUSDC.sol` token
  (directory `x402-market/contracts/contracts/`);
* the off-chain `RelayerFacilitator.verify` of the relayer module
  (`x402-market/src/lib/x402-relayer.ts`);
* the HTTP route handlers `GET /api/gateway/[serviceId]`,
  `GET /api/agent/services` and `POST /api/claim`
  (`x402-market/src/app/api/...`).

Solidity `uint256` values are modelled as `Nat` (no arithmetic in the
contracts can overflow the ranges the theorems use; Solidity 0.8 reverts
on overflow, and every subtraction below is guarded by an explicit
comparison exactly as in the source).  A reverting call is an
`Except.error`; EVM revert semantics (the whole transaction rolls back)
is made explicit by the `txRun` wrapper which restores the pre-state on
error.  ECDSA recovery over the EIP-712 digest is an abstract function
supplied in the configuration record, since the claims never depend on
the arithmetic of secp256k1, only on whether the recovered address
matches `from`.
-/

namespace X402

/-- Account addresses, modelled as natural numbers; `0` is the zero address. -/
abbrev Address := Nat

/-- 32-byte values (authorization nonces, service id hashes). -/
abbrev Bytes32 := Nat

/-- An EIP-3009 authorization tuple as hashed into the EIP-712 digest:
`(from, to, value, validAfter, validBefore, nonce)`.  The Solidity
parameter `from` is a Lean keyword, hence the field name `fromAddr`. -/
structure Auth where
  fromAddr : Address
  toAddr : Address
  value : Nat
  validAfter : Nat
  validBefore : Nat
  nonce : Bytes32
deriving DecidableEq, Repr

/-- An ECDSA signature split into its `(v, r, s)` components. -/
structure Sig where
  v : Nat
  r : Nat
  s : Nat
deriving DecidableEq, Repr

/-- One record of `X402ServiceRegistry.services`.  The Solidity mapping
default (all fields zero) is `provider = 0`, which the registry treats
as absence. -/
structure RegService where
  provider : Address
  price : Nat
  isActive : Bool
deriving DecidableEq, Repr

/-- The combined on-chain state touched by the contract trio and the token:
token balances and EIP-3009 authorization states (`MockUSDC`), the
processor nonce set (`X402PaymentProcessor.usedNonces`, keyed by the
bare `bytes32` nonce as in the source), the service catalog
(`X402ServiceRegistry.services`), and the escrow ledger with its
admin fields (`X402Escrow`). -/
structure Chain where
  balances : Address → Nat
  authUsed : Address → Bytes32 → Bool
  usedNonces : Bytes32 → Bool
  services : Bytes32 → RegService
  providerBalances : Address → Nat
  totalEarned : Address → Nat
  totalClaimed : Address → Nat
  platformTreasury : Address
  relayer : Address
  escrowOwner : Address
  registryOwner : Address
  platformFeePercent : Nat

/-- Deployment-immutable configuration: the abstract ECDSA recovery over
the EIP-712 `ReceiveWithAuthorization` digest, and the deployed
addresses of the processor and the escrow. -/
structure Config where
  recover : Auth → Sig → Address
  processorAddr : Address
  escrowAddr : Address

/-- ERC-20 balance movement used by `_transfer`: debit `sender`, credit
`recipient`. -/
def transferBal (b : Address → Nat) (sender recipient : Address) (amount : Nat) :
    Address → Nat :=
  let b1 := Function.update b sender (b sender - amount)
  Function.update b1 recipient (b1 recipient + amount)

/-- OpenZeppelin ERC-20 `transfer` semantics: reverts when the sender
balance is insufficient, otherwise moves `amount`. -/
def erc20Transfer (sender recipient : Address) (amount : Nat) (c : Chain) :
    Except String Chain :=
  if c.balances sender < amount then .error "ERC20: transfer amount exceeds balance"
  else .ok { c with balances := transferBal c.balances sender recipient amount }

/-- Embedding of `MockUSDC.receiveWithAuthorization`: strict time window
(`block.timestamp > validAfter` and `< validBefore`), per-authorizer
nonce state, EIP-712 recovery compared against `from`, then the token
transfer. -/
def receiveWithAuthorization (cfg : Config) (now : Nat) (a : Auth) (sig : Sig)
    (c : Chain) : Except String Chain :=
  if ¬ (now > a.validAfter) then .error "MockUSDC: authorization is not yet valid"
  else if ¬ (now < a.validBefore) then .error "MockUSDC: authorization is expired"
  else if c.authUsed a.fromAddr a.nonce then .error "MockUSDC: authorization is used"
  else if cfg.recover a sig = 0 ∨ cfg.recover a sig ≠ a.fromAddr then
    .error "MockUSDC: invalid signature"
  else if c.balances a.fromAddr < a.value then .error "ERC20: transfer amount exceeds balance"
  else .ok { c with
    authUsed := fun f n => if f = a.fromAddr ∧ n = a.nonce then true else c.authUsed f n,
    balances := transferBal c.balances a.fromAddr a.toAddr a.value }

/-- Embedding of `X402Escrow.receivePayment`: owner-only; splits `amount`
into `platformFee = amount * platformFeePercent / 100` (integer floor
division exactly as Solidity), transfers the fee to the treasury when
positive, and credits `providerShare = amount - platformFee` to both
`providerBalances[provider]` and `totalEarned[provider]`. -/
def receivePayment (cfg : Config) (caller provider payer : Address) (amount : Nat)
    (c : Chain) : Except String Chain :=
  if caller ≠ c.escrowOwner then .error "Not owner"
  else if provider = 0 then .error "Invalid provider"
  else if amount = 0 then .error "Amount must be > 0"
  else
    (if 0 < amount * c.platformFeePercent / 100 then
        erc20Transfer cfg.escrowAddr c.platformTreasury
          (amount * c.platformFeePercent / 100) c
     else .ok c).map fun c1 =>
      { c1 with
        providerBalances := Function.update c1.providerBalances provider
          (c1.providerBalances provider + (amount - amount * c.platformFeePercent / 100)),
        totalEarned := Function.update c1.totalEarned provider
          (c1.totalEarned provider + (amount - amount * c.platformFeePercent / 100)) }

/-- Embedding of `X402Escrow.claim`: the caller claims its full balance,
which is zeroed and added to `totalClaimed`, then transferred out. -/
def escrowClaim (cfg : Config) (caller : Address) (c : Chain) : Except String Chain :=
  if c.providerBalances caller = 0 then .error "No balance to claim"
  else
    erc20Transfer cfg.escrowAddr caller (c.providerBalances caller)
      { c with
        providerBalances := Function.update c.providerBalances caller 0,
        totalClaimed := Function.update c.totalClaimed caller
          (c.totalClaimed caller + c.providerBalances caller) }

/-- Embedding of `X402Escrow.withdraw`: callable by the escrow owner or the
relayer role; requires a positive amount covered by the provider
balance, debits the balance, credits `totalClaimed`, and transfers the
tokens to the provider. -/
def escrowWithdraw (cfg : Config) (caller provider : Address) (amount : Nat)
    (c : Chain) : Except String Chain :=
  if ¬ (caller = c.escrowOwner ∨ caller = c.relayer) then .error "Not authorized"
  else if provider = 0 then .error "Invalid provider"
  else if amount = 0 then .error "Amount must be > 0"
  else if c.providerBalances provider < amount then .error "Insufficient balance"
  else
    erc20Transfer cfg.escrowAddr provider amount
      { c with
        providerBalances := Function.update c.providerBalances provider
          (c.providerBalances provider - amount),
        totalClaimed := Function.update c.totalClaimed provider
          (c.totalClaimed provider + amount) }

/-- Embedding of `X402Escrow.setPlatformFee` (owner-only, capped at 20). -/
def setPlatformFee (caller : Address) (newFee : Nat) (c : Chain) : Except String Chain :=
  if caller ≠ c.escrowOwner then .error "Not owner"
  else if 20 < newFee then .error "Fee cannot exceed 20%"
  else .ok { c with platformFeePercent := newFee }

/-- Embedding of `X402Escrow.setTreasury` (owner-only, nonzero address). -/
def setTreasury (caller newTreasury : Address) (c : Chain) : Except String Chain :=
  if caller ≠ c.escrowOwner then .error "Not owner"
  else if newTreasury = 0 then .error "Invalid address"
  else .ok { c with platformTreasury := newTreasury }

/-- Embedding of `X402ServiceRegistry.getService`: a zero provider means
the service was never registered. -/
def getService (c : Chain) (serviceId : Bytes32) : Except String RegService :=
  if (c.services serviceId).provider = 0 then .error "Service not found"
  else .ok (c.services serviceId)

/-- Embedding of `X402ServiceRegistry.reactivateService` (provider of the
service or registry owner). -/
def reactivateService (caller : Address) (serviceId : Bytes32) (c : Chain) :
    Except String Chain :=
  if (c.services serviceId).provider = 0 then .error "Service not found"
  else if ¬ (caller = (c.services serviceId).provider ∨ caller = c.registryOwner) then
    .error "Not authorized"
  else .ok { c with
    services := Function.update c.services serviceId
      { c.services serviceId with isActive := true } }

/-- Embedding of `X402PaymentProcessor.processPayment`.  Exactly as in the
source the nonce check comes first and `usedNonces[nonce] = true` is
written before the service lookup; the token call is made with
`to = address(escrow)` so the signed digest must name the escrow.  Any
error models a revert of the whole call. -/
def processPayment (cfg : Config) (now : Nat) (serviceId : Bytes32)
    (fromAddr : Address) (value validAfter validBefore : Nat) (nonce : Bytes32)
    (sig : Sig) (c : Chain) : Except String Chain :=
  if c.usedNonces nonce then .error "Nonce already used"
  else
    match getService { c with usedNonces := Function.update c.usedNonces nonce true }
        serviceId with
    | .error e => .error e
    | .ok svc =>
      if ¬ svc.isActive then .error "Service not active"
      else if value < svc.price then .error "Insufficient payment"
      else
        match receiveWithAuthorization cfg now
          ⟨fromAddr, cfg.escrowAddr, value, validAfter, validBefore, nonce⟩ sig
          { c with usedNonces := Function.update c.usedNonces nonce true } with
        | .error e => .error e
        | .ok c2 => receivePayment cfg cfg.processorAddr svc.provider fromAddr value c2

/-- EVM transaction semantics: a revert (error) restores the pre-state, a
success commits the new state; the second component is the revert
reason, if any. -/
def txRun (f : Chain → Except String Chain) (c : Chain) : Chain × Option String :=
  match f c with
  | .ok c2 => (c2, none)
  | .error e => (c, some e)

/-! ## Off-chain verifier (`RelayerFacilitator.verify` in `x402-relayer.ts`) -/

/-- The decoded `SignatureData` record of `x402-relayer.ts`: the
authorization fields together with the `(v, r, s)` signature
components. -/
structure SignatureData where
  fromAddr : Address
  toAddr : Address
  value : Nat
  validAfter : Nat
  validBefore : Nat
  nonce : Bytes32
  v : Nat
  r : Nat
  s : Nat
deriving DecidableEq, Repr

/-- The `VerifyResult` record of `x402-relayer.ts` (the fields the claims
mention; `error?` is `errMsg`). -/
structure VerifyResult where
  isValid : Bool
  payer : Address
  paymentId : Bytes32
  errMsg : Option String
deriving DecidableEq, Repr

/-- The authorization tuple carried by a decoded `SignatureData`. -/
def authOfData (d : SignatureData) : Auth :=
  ⟨d.fromAddr, d.toAddr, d.value, d.validAfter, d.validBefore, d.nonce⟩

/-- The signature components carried by a decoded `SignatureData`. -/
def sigOfData (d : SignatureData) : Sig := ⟨d.v, d.r, d.s⟩

/-- Embedding of `RelayerFacilitator.verify` after payload decoding.  The
RPC nonce-freshness probe is abstracted as `nonceProbe : Except Unit Bool`
(`.ok b` means the call returned `b`, `.error ()` means it threw); the
source wraps the probe in `try { ... } catch { ... }` whose catch block
is empty, so a thrown probe falls through to the success result.  The
source performs no ECDSA recovery: `v`, `r`, `s` are never read. -/
def relayerVerify (now : Nat) (nonceProbe : Except Unit Bool) (d : SignatureData) :
    VerifyResult :=
  if now < d.validAfter then
    ⟨false, d.fromAddr, d.nonce, some "Authorization not yet valid"⟩
  else if d.validBefore < now then
    ⟨false, d.fromAddr, d.nonce, some "Authorization expired"⟩
  else
    match nonceProbe with
    | .ok true => ⟨false, d.fromAddr, d.nonce, some "Nonce already used"⟩
    | .ok false => ⟨true, d.fromAddr, d.nonce, none⟩
    | .error _ => ⟨true, d.fromAddr, d.nonce, none⟩

/-- Whether an abstract probe outcome is a returned `true` (nonce reported
used).  Any other outcome — a returned `false` or a thrown error — lets
`relayerVerify` fall through to its success result. -/
def probeSaysUsed : Except Unit Bool → Bool
  | .ok true => true
  | _ => false

/-- Argument types of the `usedNonces` entry in `PAYMENT_PROCESSOR_ABI`
inside `x402-relayer.ts`: the relayer calls
`usedNonces(address payer, bytes32 nonce)`. -/
def relayerAbiUsedNoncesArgTypes : List String := ["address", "bytes32"]

/-- Argument types of the public getter generated for
`mapping(bytes32 => bool) public usedNonces` in
`X402PaymentProcessor.sol`: a single `bytes32` key. -/
def processorUsedNoncesArgTypes : List String := ["bytes32"]

/-! ## HTTP route models -/

/-- The slice of a database `Service` row (with its joined provider) that
the gateway route reads.  Prices are stored in token units as
JavaScript numbers; we model them as exact rationals. -/
structure DbService where
  id : String
  name : String
  price : ℚ
  serviceType : String
  isActive : Bool
  providerWallet : String
deriving DecidableEq, Repr

/-- The `accepts[0]` block of the 402 challenge built by
`GET /api/gateway/[serviceId]` (fields the claims mention). -/
structure PaymentAccepts where
  scheme : String
  network : String
  maxAmountRequired : ℚ
  resource : String
  description : String
  payTo : String
  maxTimeoutSeconds : Nat
  asset : String
deriving DecidableEq, Repr

/-- The challenge builder inside the gateway route: transcribed from the
object literal in `app/api/gateway/[serviceId]/route.ts`, including
`payTo: service.provider.walletAddress`. -/
def gatewayChallenge (mockUsdcAddr : String) (svc : DbService) : PaymentAccepts :=
  { scheme := "gasless"
    network := "eip155:71"
    maxAmountRequired := svc.price * 1000000000000000000
    resource := "/api/gateway/" ++ svc.id
    description := "Access to: " ++ svc.name
    payTo := svc.providerWallet
    maxTimeoutSeconds := 300
    asset := mockUsdcAddr }

/-- Outcomes of the dispatch prefix of `GET /api/gateway/[serviceId]`:
missing service (404), inactive (410), NATIVE/API service (400),
missing `payment-signature` header (402 challenge), or fall-through to
the settle-and-proxy path. -/
inductive GatewayReply where
  | notFound
  | inactive
  | nativeApi
  | challenge (body : PaymentAccepts)
  | settleFlow
deriving DecidableEq, Repr

/-- Embedding of the dispatch prefix of `GET /api/gateway/[serviceId]`. -/
def gatewayGET (mockUsdcAddr : String) (svc? : Option DbService)
    (paymentSig? : Option String) : GatewayReply :=
  match svc? with
  | none => .notFound
  | some svc =>
    if ¬ svc.isActive then .inactive
    else if svc.serviceType = "API" then .nativeApi
    else
      match paymentSig? with
      | none => .challenge (gatewayChallenge mockUsdcAddr svc)
      | some _ => .settleFlow

/-- The `paymentRequirements` block emitted per service by
`GET /api/agent/services`: its `payTo` is the configured
`ESCROW_ADDRESS` (transcribed from `app/api/agent/services/route.ts`). -/
structure AgentPaymentRequirements where
  scheme : String
  network : String
  maxAmountRequired : ℤ
  payTo : String
  asset : String
  maxTimeoutSeconds : Nat
deriving DecidableEq, Repr

/-- Embedding of the `paymentRequirements` builder of
`GET /api/agent/services` (`BigInt(Math.round(service.price * 1e18))`,
`payTo: ESCROW_ADDRESS`). -/
def agentPaymentRequirements (escrowAddr defaultToken : String) (svc : DbService) :
    AgentPaymentRequirements :=
  { scheme := "exact"
    network := "eip155:71"
    maxAmountRequired := round (svc.price * 1000000000000000000)
    payTo := escrowAddr
    asset := defaultToken
    maxTimeoutSeconds := 300 }

/-- Responses of `POST /api/claim` (the cases the claims mention):
a 400 for a missing amount, a 400 carrying the on-chain balance when
the requested amount exceeds it, a 200 on success, and a 500 when the
chain call or unit parsing throws. -/
inductive ClaimReply where
  | missingAmount
  | insufficientBalance (claimableBalance : ℚ)
  | success (amount : ℚ) (wallet : Address)
  | failed (msg : String)
deriving DecidableEq, Repr

/-- Embedding of `ethers.parseUnits(amount.toString(), 18)`: exact when the
scaled value is a nonnegative integer, a thrown error otherwise. -/
def parseUnits18 (amount : ℚ) : Except String Nat :=
  if (amount * 1000000000000000000 : ℚ).den = 1 ∧ 0 ≤ (amount * 1000000000000000000 : ℚ).num
  then .ok (amount * 1000000000000000000 : ℚ).num.toNat
  else .error "invalid decimal value"

/-- Embedding of the core of `POST /api/claim` after wallet resolution
(`app/api/agent/services/route.ts`, claim handler): reject a zero
amount (`!amount`), read `escrow.providerBalances(wallet)` from chain
and format it to token units, reject with 400 and no chain call when
`amount` exceeds it, otherwise convert to base units and submit
`escrow.withdraw(wallet, amountWei)` from the relayer wallet.  A revert
is caught and surfaced as a 500 with the pre-state unchanged. -/
def claimRoute (cfg : Config) (relayerAddr wallet : Address) (amount : ℚ)
    (c : Chain) : ClaimReply × Chain :=
  if amount = 0 then (.missingAmount, c)
  else
    if (c.providerBalances wallet : ℚ) / 1000000000000000000 < amount then
      (.insufficientBalance ((c.providerBalances wallet : ℚ) / 1000000000000000000), c)
    else
      match parseUnits18 amount with
      | .error e => (.failed e, c)
      | .ok amountWei =>
        match escrowWithdraw cfg relayerAddr wallet amountWei c with
        | .ok c1 => (.success amount wallet, c1)
        | .error e => (.failed e, c)

/-! ## Concrete fixtures used by witnesses and counterexamples

Addresses: `3` a provider, `5` and `6` two payers, `8` the treasury,
`9` the relayer key, `90` the deployed payment processor (which owns the
escrow, as the deployment wiring prescribes), `91` the escrow.  The
abstract recovery function of `cfgX` reads the true signer out of the
`v` component, so a signature `⟨a, _, _⟩` plays the role of a signature
produced by address `a`. -/

/-- Concrete deployment configuration for witnesses. -/
def cfgX : Config :=
  { recover := fun _ sig => sig.v
    processorAddr := 90
    escrowAddr := 91 }

/-- Concrete chain state: two funded payers, a funded escrow, service `1`
registered and active (provider `3`, price `100`), service `2`
registered but deactivated, and provider `3` holding an escrow balance
of `2e18` base units. -/
def chain0 : Chain :=
  { balances := fun a =>
      if a = 5 ∨ a = 6 then 100000000000000000000
      else if a = 91 then 10000000000000000000
      else 0
    authUsed := fun _ _ => false
    usedNonces := fun _ => false
    services := fun sid =>
      if sid = 1 then ⟨3, 100, true⟩
      else if sid = 2 then ⟨3, 100, false⟩
      else ⟨0, 0, false⟩
    providerBalances := fun a => if a = 3 then 2000000000000000000 else 0
    totalEarned := fun a => if a = 3 then 2000000000000000000 else 0
    totalClaimed := fun _ => 0
    platformTreasury := 8
    relayer := 9
    escrowOwner := 90
    registryOwner := 9
    platformFeePercent := 5 }

/-- The chain state after payer `5` successfully settles service `1` with
nonce `77` on `chain0`. -/
def chain1 : Chain :=
  (processPayment cfgX 50 1 5 100 0 100 77 ⟨5, 0, 0⟩ chain0).toOption.getD chain0

/-- The chain state after a successful `receivePayment` of `1000` base
units for provider `3` on `chain0`. -/
def chainC5 : Chain :=
  (receivePayment cfgX 90 3 5 1000 chain0).toOption.getD chain0

/-- The chain state after a successful relayer `withdraw` of `1e18` base
units for provider `3` on `chain0`. -/
def chainC8 : Chain :=
  (escrowWithdraw cfgX 9 3 1000000000000000000 chain0).toOption.getD chain0

/-- The chain state after the provider reactivates the deactivated
service `2` on `chain0`. -/
def chain2 : Chain :=
  (reactivateService 3 2 chain0).toOption.getD chain0

/-- A decoded payload whose signature was produced by address `7`
(under `cfgX.recover`) while its `from` field names address `5`. -/
def d2X : SignatureData :=
  { fromAddr := 5, toAddr := 91, value := 100, validAfter := 0, validBefore := 100
    nonce := 78, v := 7, r := 0, s := 0 }

/-- A decoded payload whose `validBefore` equals the probing time `50`. -/
def d6X : SignatureData :=
  { fromAddr := 5, toAddr := 91, value := 100, validAfter := 0, validBefore := 50
    nonce := 79, v := 5, r := 0, s := 0 }

/-- A well-formed decoded payload comfortably inside the window at time
`50`, signed by its own `from` address under `cfgX.recover`. -/
def dW : SignatureData :=
  { fromAddr := 5, toAddr := 91, value := 100, validAfter := 10, validBefore := 90
    nonce := 81, v := 5, r := 0, s := 0 }

/-- A database service row joined with its provider, as the gateway route
reads it. -/
def svcC1 : DbService :=
  { id := "svc-1", name := "Gold Price Feed", price := 1
    serviceType := "HOSTED", isActive := true
    providerWallet := "0xProviderWallet" }

/-! ## The escrow operation machine (for the ledger invariant) -/

/-- The externally callable mutating operations of `X402Escrow`, each with
its caller. -/
inductive EscrowOp where
  | receivePay (caller provider payer : Address) (amount : Nat)
  | claimCall (caller : Address)
  | withdrawCall (caller provider : Address) (amount : Nat)
  | setFeeCall (caller : Address) (newFee : Nat)
  | setTreasuryCall (caller newTreasury : Address)

/-- Execute one escrow operation as a transaction: a revert leaves the
state unchanged. -/
def escrowStep (cfg : Config) (c : Chain) : EscrowOp → Chain
  | .receivePay caller provider payer amount =>
      (txRun (receivePayment cfg caller provider payer amount) c).1
  | .claimCall caller => (txRun (escrowClaim cfg caller) c).1
  | .withdrawCall caller provider amount =>
      (txRun (escrowWithdraw cfg caller provider amount) c).1
  | .setFeeCall caller newFee => (txRun (setPlatformFee caller newFee) c).1
  | .setTreasuryCall caller newTreasury => (txRun (setTreasury caller newTreasury) c).1

/-- Execute a sequence of escrow operations. -/
def escrowRun (cfg : Config) (c : Chain) (ops : List EscrowOp) : Chain :=
  ops.foldl (escrowStep cfg) c

/-- The freshly deployed state: every ledger mapping is zero (Solidity
mapping defaults), the fee is the declared initial `5`, and the token
balances and role addresses are deployment parameters. -/
def initialChain (bal : Address → Nat) (treasury relayerA owner regOwner : Address) :
    Chain :=
  { balances := bal
    authUsed := fun _ _ => false
    usedNonces := fun _ => false
    services := fun _ => ⟨0, 0, false⟩
    providerBalances := fun _ => 0
    totalEarned := fun _ => 0
    totalClaimed := fun _ => 0
    platformTreasury := treasury
    relayer := relayerA
    escrowOwner := owner
    registryOwner := regOwner
    platformFeePercent := 5 }

/-- The per-provider ledger identity of the escrow:
`providerBalances[p] + totalClaimed[p] = totalEarned[p]`. -/
def LedgerInv (c : Chain) : Prop :=
  ∀ p, c.providerBalances p + c.totalClaimed p = c.totalEarned p

/-! ## Helper lemmas -/

/-- A successful ERC-20 transfer touches only token balances. -/
theorem erc20Transfer_ok_fields {sender recipient : Address} {amount : Nat}
    {c c1 : Chain} (h : erc20Transfer sender recipient amount c = .ok c1) :
    c1.usedNonces = c.usedNonces ∧ c1.providerBalances = c.providerBalances ∧
    c1.totalEarned = c.totalEarned ∧ c1.totalClaimed = c.totalClaimed ∧
    c1.balances = transferBal c.balances sender recipient amount := by
  unfold erc20Transfer at h
  split at h
  · simp at h
  · cases h
    exact ⟨rfl, rfl, rfl, rfl, rfl⟩

/-- A successful token `receiveWithAuthorization` leaves the processor
nonce set and the escrow ledger untouched, and moves `value` from the
payer to the destination. -/
theorem receiveWithAuthorization_ok_fields {cfg : Config} {now : Nat} {a : Auth}
    {sig : Sig} {c c1 : Chain} (h : receiveWithAuthorization cfg now a sig c = .ok c1) :
    c1.usedNonces = c.usedNonces ∧ c1.providerBalances = c.providerBalances ∧
    c1.totalEarned = c.totalEarned ∧ c1.totalClaimed = c.totalClaimed ∧
    c1.balances = transferBal c.balances a.fromAddr a.toAddr a.value ∧
    c1.escrowOwner = c.escrowOwner ∧ c1.platformFeePercent = c.platformFeePercent ∧
    c1.platformTreasury = c.platformTreasury := by
  unfold receiveWithAuthorization at h
  split at h
  · simp at h
  split at h
  · simp at h
  split at h
  · simp at h
  split at h
  · simp at h
  split at h
  · simp at h
  cases h
  exact ⟨rfl, rfl, rfl, rfl, rfl, rfl, rfl, rfl⟩

/-- A successful `receivePayment` leaves the processor nonce set
untouched. -/
theorem receivePayment_ok_usedNonces {cfg : Config} {caller provider payer : Address}
    {amount : Nat} {c c1 : Chain}
    (h : receivePayment cfg caller provider payer amount c = .ok c1) :
    c1.usedNonces = c.usedNonces := by
  unfold receivePayment at h
  split at h
  · simp at h
  split at h
  · simp at h
  split at h
  · simp at h
  split at h
  · cases htr : erc20Transfer cfg.escrowAddr c.platformTreasury
        (amount * c.platformFeePercent / 100) c with
    | error e => rw [htr] at h; simp [Except.map] at h
    | ok c2 =>
      rw [htr] at h
      simp only [Except.map] at h
      cases h
      exact (erc20Transfer_ok_fields htr).1
  · simp only [Except.map] at h
    cases h
    rfl

/-- After a successful `processPayment`, the consumed nonce is marked used
in the resulting state. -/
theorem processPayment_ok_usedNonces {cfg : Config} {now : Nat} {sid : Bytes32}
    {f : Address} {val va vb : Nat} {nonce : Bytes32} {sig : Sig} {c c1 : Chain}
    (h : processPayment cfg now sid f val va vb nonce sig c = .ok c1) :
    c1.usedNonces nonce = true := by
  unfold processPayment getService at h
  split at h
  · simp at h
  split at h
  · simp at h
  split at h
  · simp at h
  split at h
  · simp at h
  split at h
  · simp at h
  rename_i hrwa
  have h1 := (receiveWithAuthorization_ok_fields hrwa).1
  have h2 := receivePayment_ok_usedNonces h
  rw [h2, h1]
  simp

/-- Balance of the recipient after a transfer (recipient distinct from the
sender). -/
theorem transferBal_recipient (b : Address → Nat) (sender recipient : Address)
    (amount : Nat) (h : recipient ≠ sender) :
    transferBal b sender recipient amount recipient = b recipient + amount := by
  unfold transferBal
  simp [Function.update, h]

/-- Balance of a bystander after a transfer. -/
theorem transferBal_other (b : Address → Nat) (sender recipient q : Address)
    (amount : Nat) (h1 : q ≠ sender) (h2 : q ≠ recipient) :
    transferBal b sender recipient amount q = b q := by
  unfold transferBal
  simp [Function.update, h1, h2]

/-- A successful `receivePayment` preserves the ledger identity. -/
theorem receivePayment_ok_ledger {cfg : Config} {caller provider payer : Address}
    {amount : Nat} {c c1 : Chain}
    (h : receivePayment cfg caller provider payer amount c = .ok c1)
    (hInv : LedgerInv c) : LedgerInv c1 := by
  unfold receivePayment at h
  split at h
  · simp at h
  split at h
  · simp at h
  split at h
  · simp at h
  split at h
  · cases htr : erc20Transfer cfg.escrowAddr c.platformTreasury
        (amount * c.platformFeePercent / 100) c with
    | error e => rw [htr] at h; simp [Except.map] at h
    | ok c2 =>
      rw [htr] at h
      simp only [Except.map] at h
      cases h
      obtain ⟨-, hpb, hte, htc, -⟩ := erc20Transfer_ok_fields htr
      intro p
      by_cases hp : p = provider
      · subst hp
        simp only [Function.update_same, hpb, hte, htc]
        have := hInv p
        omega
      · simp only [Function.update_noteq hp, hpb, hte, htc]
        exact hInv p
  · simp only [Except.map] at h
    cases h
    intro p
    by_cases hp : p = provider
    · subst hp
      simp only [Function.update_same]
      have := hInv p
      omega
    · simp only [Function.update_noteq hp]
      exact hInv p

/-- A successful `claim` preserves the ledger identity. -/
theorem escrowClaim_ok_ledger {cfg : Config} {caller : Address} {c c1 : Chain}
    (h : escrowClaim cfg caller c = .ok c1) (hInv : LedgerInv c) : LedgerInv c1 := by
  unfold escrowClaim at h
  split at h
  · simp at h
  obtain ⟨-, hpb, hte, htc, -⟩ := erc20Transfer_ok_fields h
  intro p
  rw [hpb, hte, htc]
  by_cases hp : p = caller
  · subst hp
    simp only [Function.update_same]
    have := hInv p
    omega
  · simp only [Function.update_noteq hp]
    exact hInv p

/-- A successful `withdraw` preserves the ledger identity. -/
theorem escrowWithdraw_ok_ledger {cfg : Config} {caller provider : Address}
    {amount : Nat} {c c1 : Chain}
    (h : escrowWithdraw cfg caller provider amount c = .ok c1)
    (hInv : LedgerInv c) : LedgerInv c1 := by
  unfold escrowWithdraw at h
  split at h
  · simp at h
  split at h
  · simp at h
  split at h
  · simp at h
  split at h
  · simp at h
  rename_i hcov
  obtain ⟨-, hpb, hte, htc, -⟩ := erc20Transfer_ok_fields h
  intro p
  rw [hpb, hte, htc]
  by_cases hp : p = provider
  · subst hp
    simp only [Function.update_same]
    have := hInv p
    omega
  · simp only [Function.update_noteq hp]
    exact hInv p

/-- A successful `setPlatformFee` preserves the ledger identity. -/
theorem setPlatformFee_ok_ledger {caller : Address} {newFee : Nat} {c c1 : Chain}
    (h : setPlatformFee caller newFee c = .ok c1) (hInv : LedgerInv c) : LedgerInv c1 := by
  unfold setPlatformFee at h
  split at h
  · simp at h
  split at h
  · simp at h
  cases h
  exact hInv

/-- A successful `setTreasury` preserves the ledger identity. -/
theorem setTreasury_ok_ledger {caller newTreasury : Address} {c c1 : Chain}
    (h : setTreasury caller newTreasury c = .ok c1) (hInv : LedgerInv c) : LedgerInv c1 := by
  unfold setTreasury at h
  split at h
  · simp at h
  split at h
  · simp at h
  cases h
  exact hInv

/-- Every escrow transaction — successful or reverting — preserves the
ledger identity. -/
theorem escrowStep_ledger (cfg : Config) (c : Chain) (op : EscrowOp)
    (hInv : LedgerInv c) : LedgerInv (escrowStep cfg c op) := by
  cases op with
  | receivePay caller provider payer amount =>
    simp only [escrowStep, txRun]
    cases hf : receivePayment cfg caller provider payer amount c with
    | error e => exact hInv
    | ok c1 => exact receivePayment_ok_ledger hf hInv
  | claimCall caller =>
    simp only [escrowStep, txRun]
    cases hf : escrowClaim cfg caller c with
    | error e => exact hInv
    | ok c1 => exact escrowClaim_ok_ledger hf hInv
  | withdrawCall caller provider amount =>
    simp only [escrowStep, txRun]
    cases hf : escrowWithdraw cfg caller provider amount c with
    | error e => exact hInv
    | ok c1 => exact escrowWithdraw_ok_ledger hf hInv
  | setFeeCall caller newFee =>
    simp only [escrowStep, txRun]
    cases hf : setPlatformFee caller newFee c with
    | error e => exact hInv
    | ok c1 => exact setPlatformFee_ok_ledger hf hInv
  | setTreasuryCall caller newTreasury =>
    simp only [escrowStep, txRun]
    cases hf : setTreasury caller newTreasury c with
    | error e => exact hInv
    | ok c1 => exact setTreasury_ok_ledger hf hInv


/-! ## Claim theorems -/

/-- C1: evaluation of the gateway challenge builder at a concrete active
HOSTED service.  The 402 challenge issued by `GET /api/gateway/[serviceId]`
without a `payment-signature` header carries `payTo` equal to the
provider wallet — not the configured escrow address — while the agent
catalog of `GET /api/agent/services` does put the escrow address in
`payTo` for the same service.  This exhibits the divergence between the
gateway route and the claimed (and elsewhere implemented) behavior. -/
theorem gateway402_payTo_is_provider_wallet :
    gatewayGET "0xToken" (some svcC1) none = .challenge (gatewayChallenge "0xToken" svcC1)
    ∧ (gatewayChallenge "0xToken" svcC1).payTo = "0xProviderWallet"
    ∧ (gatewayChallenge "0xToken" svcC1).payTo ≠ "0xEscrowAddr"
    ∧ (agentPaymentRequirements "0xEscrowAddr" "0xToken" svcC1).payTo = "0xEscrowAddr" :=
  ⟨rfl, rfl, by decide, rfl⟩

/-- C2 counterexample: a decoded payload whose signature was produced by
address `7` (under the deployment recovery function `cfgX.recover`)
while naming `from = 5` is reported `isValid = true` by
`RelayerFacilitator.verify`, even though the token contract itself
rejects that very signature as invalid.  The claimed `BAD_SIGNATURE`
rejection does not exist off-chain. -/
theorem relayerVerify_accepts_foreign_signature :
    (relayerVerify 50 (.ok false) d2X).isValid = true
    ∧ cfgX.recover (authOfData d2X) (sigOfData d2X) ≠ d2X.fromAddr
    ∧ receiveWithAuthorization cfgX 50 (authOfData d2X) (sigOfData d2X) chain0 =
        .error "MockUSDC: invalid signature" :=
  ⟨rfl, by decide, rfl⟩

/-- C2 (amended): the off-chain verifier performs no signature recovery at
all — its result is invariant under arbitrary changes to `(v, r, s)` —
and it returns `isValid = true` exactly when the payload is inside the
closed time window and the nonce probe did not report the nonce used.
Signature authenticity is enforced only on-chain at settlement. -/
theorem relayerVerify_no_signature_recovery (now : Nat) (nonceProbe : Except Unit Bool)
    (d : SignatureData) (v2 r2 s2 : Nat) :
    relayerVerify now nonceProbe { d with v := v2, r := r2, s := s2 }
        = relayerVerify now nonceProbe d
    ∧ ((relayerVerify now nonceProbe d).isValid = true ↔
        d.validAfter ≤ now ∧ now ≤ d.validBefore ∧ probeSaysUsed nonceProbe = false) := by
  constructor
  · rfl
  · unfold relayerVerify probeSaysUsed
    split_ifs with h1 h2
    · simp
      omega
    · simp
      omega
    · cases nonceProbe with
      | ok b =>
        cases b
        · simp
          omega
        · simp
      | error u => simp; omega

/-- C2 witness: the characterization applied at a concrete in-window
payload with a mutilated signature. -/
theorem relayerVerify_no_signature_recovery_witness :
    relayerVerify 50 (.ok false) { dW with v := 123, r := 9, s := 9 }
        = relayerVerify 50 (.ok false) dW
    ∧ (relayerVerify 50 (.ok false) dW).isValid = true :=
  ⟨(relayerVerify_no_signature_recovery 50 (.ok false) dW 123 9 9).1,
   (relayerVerify_no_signature_recovery 50 (.ok false) dW 123 9 9).2.mpr
     (by refine ⟨by decide, by decide, by decide⟩)⟩

/-- C3 counterexample: payer `5` settles service `1` with nonce `77`;
afterwards a different payer `6` submitting a distinct authorization
that reuses the same 32-byte nonce is rejected with
"Nonce already used".  `usedNonces` is keyed by the bare nonce, not per
payer, so a second payer IS prevented from reusing the nonce. -/
theorem second_payer_same_nonce_rejected :
    processPayment cfgX 50 1 5 100 0 100 77 ⟨5, 0, 0⟩ chain0 = .ok chain1
    ∧ processPayment cfgX 50 1 6 100 0 100 77 ⟨6, 0, 0⟩ chain1
        = .error "Nonce already used"
    ∧ (5 : Address) ≠ 6 :=
  ⟨rfl, rfl, by decide⟩

/-- C3 (amended): `PaymentProcessor.usedNonces` is a global set keyed by
the 32-byte nonce alone.  After any successful settlement consuming
nonce `n`, every later `processPayment` with nonce `n` — for any payer,
any service, any amount and any window — reverts with
"Nonce already used". -/
theorem usedNonces_global_not_per_payer (cfg : Config) (now now2 : Nat)
    (sid sid2 : Bytes32) (f1 f2 : Address) (val va vb val2 va2 vb2 : Nat)
    (nonce : Bytes32) (sig sig2 : Sig) (c c1 : Chain)
    (h : processPayment cfg now sid f1 val va vb nonce sig c = .ok c1) :
    processPayment cfg now2 sid2 f2 val2 va2 vb2 nonce sig2 c1
      = .error "Nonce already used" := by
  have hn : c1.usedNonces nonce = true := processPayment_ok_usedNonces h
  unfold processPayment
  rw [if_pos hn]

/-- C3 witness: the amended statement applied to the concrete settlement
of `chain0`, with a second payer, another service and other parameters. -/
theorem usedNonces_global_not_per_payer_witness :
    processPayment cfgX 60 2 6 55 1 99 77 ⟨6, 1, 1⟩ chain1
      = .error "Nonce already used" :=
  usedNonces_global_not_per_payer cfgX 50 60 1 2 5 6 100 0 100 55 1 99 77
    ⟨5, 0, 0⟩ ⟨6, 1, 1⟩ chain0 chain1 rfl

/-- C4: settlement is at-most-once.  If `processPayment` succeeds producing
state `c1`, resubmitting the same authorization (at any later block
time) reverts with "Nonce already used" and — by EVM revert semantics —
leaves every piece of contract state exactly as the first call left it:
the transaction returns `(c1, some "Nonce already used")`. -/
theorem processPayment_at_most_once (cfg : Config) (now now2 : Nat) (sid : Bytes32)
    (f : Address) (val va vb : Nat) (nonce : Bytes32) (sig : Sig) (c c1 : Chain)
    (h : processPayment cfg now sid f val va vb nonce sig c = .ok c1) :
    txRun (processPayment cfg now2 sid f val va vb nonce sig) c1
      = (c1, some "Nonce already used") := by
  have hn : c1.usedNonces nonce = true := processPayment_ok_usedNonces h
  unfold txRun processPayment
  rw [if_pos hn]

/-- C4 witness: the concrete settlement of nonce `77` on `chain0`,
resubmitted against the post-settlement state `chain1`. -/
theorem processPayment_at_most_once_witness :
    txRun (processPayment cfgX 50 1 5 100 0 100 77 ⟨5, 0, 0⟩) chain1
      = (chain1, some "Nonce already used") :=
  processPayment_at_most_once cfgX 50 50 1 5 100 0 100 77 ⟨5, 0, 0⟩ chain0 chain1 rfl

/-- C5: fee split of a successful `Escrow.receivePayment`.  The platform
fee is exactly `amount * platformFeePercent / 100` in floor integer
arithmetic; it is credited to the treasury token balance in the same
transaction; `amount - fee` is added to both `providerBalances[provider]`
and `totalEarned[provider]`; the escrow balance of every other provider
is unchanged; and a successful call implies `amount > 0`. -/
theorem receivePayment_fee_split (cfg : Config) (caller provider payer : Address)
    (amount : Nat) (c c1 : Chain)
    (h : receivePayment cfg caller provider payer amount c = .ok c1)
    (hT : c.platformTreasury ≠ cfg.escrowAddr) :
    0 < amount
    ∧ c1.balances c.platformTreasury
        = c.balances c.platformTreasury + amount * c.platformFeePercent / 100
    ∧ c1.providerBalances provider
        = c.providerBalances provider + (amount - amount * c.platformFeePercent / 100)
    ∧ c1.totalEarned provider
        = c.totalEarned provider + (amount - amount * c.platformFeePercent / 100)
    ∧ ∀ q, q ≠ provider → c1.providerBalances q = c.providerBalances q := by
  unfold receivePayment at h
  split at h
  · simp at h
  split at h
  · simp at h
  split at h
  · simp at h
  rename_i hc hp ha
  split at h
  · rename_i hfee
    cases htr : erc20Transfer cfg.escrowAddr c.platformTreasury
        (amount * c.platformFeePercent / 100) c with
    | error e => rw [htr] at h; simp [Except.map] at h
    | ok c2 =>
      rw [htr] at h
      simp only [Except.map] at h
      cases h
      obtain ⟨-, hpb, hte, -, hbal⟩ := erc20Transfer_ok_fields htr
      refine ⟨Nat.pos_of_ne_zero ha, ?_, ?_, ?_, ?_⟩
      · show c2.balances c.platformTreasury = _
        rw [hbal, transferBal_recipient _ _ _ _ hT]
      · show Function.update c2.providerBalances provider _ provider = _
        rw [Function.update_same, hpb]
      · show Function.update c2.totalEarned provider _ provider = _
        rw [Function.update_same, hte]
      · intro q hq
        show Function.update c2.providerBalances provider _ q = _
        rw [Function.update_noteq hq, hpb]
  · rename_i hfee
    simp only [Except.map] at h
    cases h
    have hf0 : amount * c.platformFeePercent / 100 = 0 := by omega
    refine ⟨Nat.pos_of_ne_zero ha, by simp [hf0], ?_, ?_, ?_⟩
    · show Function.update c.providerBalances provider _ provider = _
      rw [Function.update_same]
    · show Function.update c.totalEarned provider _ provider = _
      rw [Function.update_same]
    · intro q hq
      show Function.update c.providerBalances provider _ q = _
      rw [Function.update_noteq hq]

/-- C5 witness: the fee split evaluated on the concrete payment of `1000`
base units to provider `3` on `chain0` (fee percent `5`, treasury `8`). -/
theorem receivePayment_fee_split_witness :
    0 < 1000
    ∧ chainC5.balances chain0.platformTreasury
        = chain0.balances chain0.platformTreasury + 1000 * chain0.platformFeePercent / 100
    ∧ chainC5.providerBalances 3
        = chain0.providerBalances 3 + (1000 - 1000 * chain0.platformFeePercent / 100)
    ∧ chainC5.totalEarned 3
        = chain0.totalEarned 3 + (1000 - 1000 * chain0.platformFeePercent / 100)
    ∧ ∀ q, q ≠ 3 → chainC5.providerBalances q = chain0.providerBalances q :=
  receivePayment_fee_split cfgX 90 3 5 1000 chain0 chainC5 rfl (by decide)

/-- C6 counterexample: at probe time `50`, a payload with
`validBefore = 50 = now` is accepted by the off-chain verifier
(`isValid = true`, no error), contradicting the claimed rejection of
`valid_before = now`. -/
theorem relayerVerify_accepts_expiry_boundary :
    (relayerVerify 50 (.ok false) d6X).isValid = true
    ∧ (relayerVerify 50 (.ok false) d6X).errMsg = none
    ∧ d6X.validBefore = 50 :=
  ⟨rfl, rfl, rfl⟩

/-- C6 (amended): the off-chain verifier accepts exactly the closed
interval `validAfter ≤ now ≤ validBefore` (when the nonce probe does
not report the nonce used): both boundaries `valid_after = now` and
`valid_before = now` are accepted off-chain, hence also
`valid_after = now - 1`.  The strict open-interval boundary the claim
describes lives on-chain: `MockUSDC.receiveWithAuthorization` rejects
`valid_before = now` with "authorization is expired". -/
theorem relayerVerify_time_window_closed (now : Nat) (nonceProbe : Except Unit Bool)
    (d : SignatureData) (hp : probeSaysUsed nonceProbe = false) :
    ((relayerVerify now nonceProbe d).isValid = true ↔
        d.validAfter ≤ now ∧ now ≤ d.validBefore)
    ∧ (∀ (cfg : Config) (a : Auth) (sig : Sig) (c : Chain),
        a.validAfter < now → a.validBefore = now →
        receiveWithAuthorization cfg now a sig c
          = .error "MockUSDC: authorization is expired") := by
  constructor
  · unfold relayerVerify
    split_ifs with h1 h2
    · simp
      omega
    · simp
      omega
    · cases nonceProbe with
      | ok b =>
        cases b
        · simp
          omega
        · exact absurd hp (by simp [probeSaysUsed])
      | error u =>
        simp
        omega
  · intro cfg a sig c h1 h2
    unfold receiveWithAuthorization
    rw [if_neg (by omega), if_pos (by omega)]

/-- C6 witness: the closed-interval characterization applied to a concrete
in-window payload, and the on-chain strict rejection at
`validBefore = now = 50`. -/
theorem relayerVerify_time_window_closed_witness :
    (relayerVerify 50 (.ok false) dW).isValid = true
    ∧ receiveWithAuthorization cfgX 50 ⟨5, 91, 100, 0, 50, 81⟩ ⟨5, 0, 0⟩ chain0
        = .error "MockUSDC: authorization is expired" :=
  ⟨(relayerVerify_time_window_closed 50 (.ok false) dW (by decide)).1.mpr
      (by exact ⟨by decide, by decide⟩),
   (relayerVerify_time_window_closed 50 (.ok false) dW (by decide)).2 cfgX
      ⟨5, 91, 100, 0, 50, 81⟩ ⟨5, 0, 0⟩ chain0 (by decide) rfl⟩

/-- C7: from the freshly deployed escrow state, after any sequence of
escrow operations (receivePayment, claim, withdraw and the admin
setters, each with arbitrary callers and arguments, reverts included)
the ledger identity `providerBalances[p] + totalClaimed[p] = totalEarned[p]`
holds for every provider, and consequently
`totalClaimed[p] ≤ totalEarned[p]` at every reachable state. -/
theorem escrow_ledger_invariant (cfg : Config) (bal : Address → Nat)
    (treasury relayerA owner regOwner : Address) (ops : List EscrowOp) :
    LedgerInv (escrowRun cfg (initialChain bal treasury relayerA owner regOwner) ops)
    ∧ ∀ p, (escrowRun cfg (initialChain bal treasury relayerA owner regOwner) ops).totalClaimed p
        ≤ (escrowRun cfg (initialChain bal treasury relayerA owner regOwner) ops).totalEarned p := by
  have hrun : ∀ (ops : List EscrowOp) (c : Chain), LedgerInv c →
      LedgerInv (escrowRun cfg c ops) := by
    intro ops
    induction ops with
    | nil => intro c h; exact h
    | cons op t ih =>
      intro c h
      exact ih _ (escrowStep_ledger cfg c op h)
  have h0 : LedgerInv (initialChain bal treasury relayerA owner regOwner) := by
    intro p
    simp [initialChain]
  have h := hrun ops _ h0
  refine ⟨h, fun p => ?_⟩
  have := h p
  omega

/-- A successful `Escrow.withdraw` implies its guards and performs exactly
the claimed ledger movement. -/
theorem escrowWithdraw_ok_spec {cfg : Config} {caller provider : Address}
    {amount : Nat} {c c1 : Chain}
    (h : escrowWithdraw cfg caller provider amount c = .ok c1) :
    0 < amount ∧ amount ≤ c.providerBalances provider
    ∧ c1.providerBalances provider = c.providerBalances provider - amount
    ∧ c1.totalClaimed provider = c.totalClaimed provider + amount := by
  unfold escrowWithdraw at h
  split at h
  · simp at h
  split at h
  · simp at h
  split at h
  · simp at h
  split at h
  · simp at h
  rename_i h1 h2 h3 h4
  obtain ⟨-, hpb, -, htc, -⟩ := erc20Transfer_ok_fields h
  refine ⟨Nat.pos_of_ne_zero h3, by omega, ?_, ?_⟩
  · rw [hpb]
    exact Function.update_same _ _ _
  · rw [htc]
    exact Function.update_same _ _ _

/-- C8: `POST /api/claim` semantics.  (1) When the requested amount exceeds
the on-chain `providerBalances` of the resolved wallet (read from chain
and formatted to token units), the route answers the 400-class
`insufficientBalance` reply and the chain state is untouched — no
transaction is submitted.  (2) Every success reply comes from a
successful `Escrow.withdraw(wallet, amountWei)` submitted by the
relayer with `amountWei = parseUnits(amount, 18)`; `withdraw` itself
requires `0 < amountWei ≤ providerBalances[wallet]` and debits exactly
`amountWei` from `providerBalances[wallet]` while crediting it to
`totalClaimed[wallet]`. -/
theorem claimRoute_checks_balance_and_withdraws (cfg : Config)
    (relayerAddr wallet : Address) (amount : ℚ) (c : Chain) :
    ((c.providerBalances wallet : ℚ) / 1000000000000000000 < amount →
      claimRoute cfg relayerAddr wallet amount c
        = (.insufficientBalance ((c.providerBalances wallet : ℚ) / 1000000000000000000), c))
    ∧ (∀ (c1 : Chain) (amt : ℚ) (w : Address),
        claimRoute cfg relayerAddr wallet amount c = (.success amt w, c1) →
        ∃ amountWei, parseUnits18 amount = .ok amountWei
          ∧ escrowWithdraw cfg relayerAddr wallet amountWei c = .ok c1
          ∧ 0 < amountWei
          ∧ amountWei ≤ c.providerBalances wallet
          ∧ c1.providerBalances wallet = c.providerBalances wallet - amountWei
          ∧ c1.totalClaimed wallet = c.totalClaimed wallet + amountWei) := by
  constructor
  · intro hlt
    have h0 : ¬ amount = 0 := by
      intro h0
      rw [h0] at hlt
      have hge : (0 : ℚ) ≤ (c.providerBalances wallet : ℚ) / 1000000000000000000 := by
        positivity
      linarith
    unfold claimRoute
    rw [if_neg h0, if_pos hlt]
  · intro c1 amt w h
    unfold claimRoute at h
    split at h
    · simp at h
    split at h
    · simp at h
    split at h
    · simp at h
    · rename_i amountWei hpu
      split at h
      · rename_i c1b hw
        simp only [Prod.mk.injEq, ClaimReply.success.injEq] at h
        obtain ⟨⟨ham, hwl⟩, hc⟩ := h
        subst hc
        obtain ⟨hp1, hp2, hp3, hp4⟩ := escrowWithdraw_ok_spec hw
        exact ⟨amountWei, hpu, hw, hp1, hp2, hp3, hp4⟩
      · simp at h

/-- C8 witness: on `chain0` (provider `3` holds `2e18` base units), a
claim of `3` tokens is rejected with the balance echo and no state
change, while a claim of `1` token succeeds through
`Escrow.withdraw(3, 1e18)` with the exact ledger movement. -/
theorem claimRoute_checks_balance_and_withdraws_witness :
    claimRoute cfgX 9 3 3 chain0
      = (.insufficientBalance ((chain0.providerBalances 3 : ℚ) / 1000000000000000000), chain0)
    ∧ ∃ amountWei, parseUnits18 1 = .ok amountWei
        ∧ escrowWithdraw cfgX 9 3 amountWei chain0 = .ok chainC8
        ∧ 0 < amountWei
        ∧ amountWei ≤ chain0.providerBalances 3
        ∧ chainC8.providerBalances 3 = chain0.providerBalances 3 - amountWei
        ∧ chainC8.totalClaimed 3 = chain0.totalClaimed 3 + amountWei := by
  constructor
  · refine (claimRoute_checks_balance_and_withdraws cfgX 9 3 3 chain0).1 ?_
    rw [show chain0.providerBalances 3 = 2000000000000000000 from rfl]
    push_cast
    norm_num
  · refine (claimRoute_checks_balance_and_withdraws cfgX 9 3 1 chain0).2 chainC8 1 3 ?_
    have hbal : chain0.providerBalances 3 = 2000000000000000000 := rfl
    have hpu : parseUnits18 1 = .ok 1000000000000000000 := by
      unfold parseUnits18
      norm_num
      rfl
    unfold claimRoute
    rw [hbal, hpu]
    split_ifs with h1 h2
    · exact absurd h1 (by norm_num)
    · exact absurd h2 (by push_cast; norm_num)
    · rfl

/-- C9: the nonce-freshness probe inside `RelayerFacilitator.verify` is
wrapped in a try/catch whose catch block is empty, so a thrown probe
(RPC failure or ABI mismatch) is swallowed and `verify` proceeds to
return `isValid = true` for any payload inside its time window — the
off-chain `NONCE_USED` never surfaces in that case and replay
protection rests entirely on the on-chain contract.  Moreover the ABI
mismatch is real: the relayer module declares
`usedNonces(address, bytes32)` while the deployed processor generates a
getter over a single `bytes32` key. -/
theorem verify_swallows_probe_exception (now : Nat) (d : SignatureData)
    (h1 : d.validAfter ≤ now) (h2 : now ≤ d.validBefore) :
    relayerVerify now (.error ()) d = ⟨true, d.fromAddr, d.nonce, none⟩
    ∧ relayerAbiUsedNoncesArgTypes ≠ processorUsedNoncesArgTypes := by
  refine ⟨?_, by decide⟩
  unfold relayerVerify
  rw [if_neg (by omega), if_neg (by omega)]

/-- C9 witness: the swallowed probe evaluated at the concrete in-window
payload `dW` at time `50`. -/
theorem verify_swallows_probe_exception_witness :
    relayerVerify 50 (.error ()) dW = ⟨true, dW.fromAddr, dW.nonce, none⟩
    ∧ relayerAbiUsedNoncesArgTypes ≠ processorUsedNoncesArgTypes :=
  verify_swallows_probe_exception 50 dW (by decide) (by decide)

/-- C10: a failed settlement consumes nothing.  If `processPayment` is
called for a registered-but-inactive service with an otherwise fully
valid authorization, it reverts with "Service not active"; the
transaction leaves the state exactly `c` (in particular the nonce stays
unused and no balance moves, even though the source writes
`usedNonces[nonce] = true` before the check that fails); and after the
service is reactivated through the registry the very same authorization
settles successfully. -/
theorem failed_settlement_consumes_nothing (cfg : Config) (now : Nat) (sid : Bytes32)
    (f : Address) (val va vb : Nat) (nonce : Bytes32) (sig : Sig) (c c2 : Chain)
    (rc : Address)
    (hnonce : c.usedNonces nonce = false)
    (hprov : (c.services sid).provider ≠ 0)
    (hinactive : (c.services sid).isActive = false)
    (hre : reactivateService rc sid c = .ok c2)
    (hprice : (c.services sid).price ≤ val)
    (hval : 0 < val)
    (hwin1 : va < now) (hwin2 : now < vb)
    (hauth : c.authUsed f nonce = false)
    (hsig : cfg.recover ⟨f, cfg.escrowAddr, val, va, vb, nonce⟩ sig = f)
    (hf0 : f ≠ 0)
    (hfunds : val ≤ c.balances f)
    (hfe : f ≠ cfg.escrowAddr)
    (howner : cfg.processorAddr = c.escrowOwner)
    (hpct : c.platformFeePercent ≤ 100) :
    processPayment cfg now sid f val va vb nonce sig c = .error "Service not active"
    ∧ txRun (processPayment cfg now sid f val va vb nonce sig) c
        = (c, some "Service not active")
    ∧ ∃ c3, processPayment cfg now sid f val va vb nonce sig c2 = .ok c3 := by
  have hpart1 : processPayment cfg now sid f val va vb nonce sig c
      = .error "Service not active" := by
    unfold processPayment getService
    simp [hnonce, hprov, hinactive]
  refine ⟨hpart1, ?_, ?_⟩
  · unfold txRun
    rw [hpart1]
  · have hc2 : c2 = { c with services := (Function.update c.services sid
        { c.services sid with isActive := true }) } := by
      unfold reactivateService at hre
      split at hre
      · simp at hre
      split at hre
      · simp at hre
      cases hre
      rfl
    subst hc2
    have hfee_le : val * c.platformFeePercent / 100 ≤ val := by
      have h100 : val * c.platformFeePercent ≤ val * 100 :=
        Nat.mul_le_mul_left val hpct
      calc val * c.platformFeePercent / 100
          ≤ val * 100 / 100 := Nat.div_le_div_right h100
        _ = val := Nat.mul_div_cancel val (by norm_num)
    have hfe2 : cfg.escrowAddr ≠ f := Ne.symm hfe
    have hgt : now > va := hwin1
    have hlt : now < vb := hwin2
    have hnlt : ¬ val < (c.services sid).price := by omega
    have hnb : ¬ c.balances f < val := by omega
    have hesc : ¬ (c.balances cfg.escrowAddr + val < val * c.platformFeePercent / 100) := by
      omega
    have hv0 : val ≠ 0 := by omega
    by_cases hfee : 0 < val * c.platformFeePercent / 100
    · cases hX : processPayment cfg now sid f val va vb nonce sig
          { c with services := (Function.update c.services sid
            { c.services sid with isActive := true }) } with
      | ok c3 => exact ⟨c3, rfl⟩
      | error e =>
        unfold processPayment getService receiveWithAuthorization receivePayment
          erc20Transfer at hX
        simp [hnonce, hprov, hprice, hval, hgt, hlt, hauth, hsig, hf0, hnlt, hnb,
          howner, hfee, Function.update, hfe2, hesc, transferBal, hv0, Except.map] at hX
    · cases hX : processPayment cfg now sid f val va vb nonce sig
          { c with services := (Function.update c.services sid
            { c.services sid with isActive := true }) } with
      | ok c3 => exact ⟨c3, rfl⟩
      | error e =>
        unfold processPayment getService receiveWithAuthorization receivePayment
          erc20Transfer at hX
        simp [hnonce, hprov, hprice, hval, hgt, hlt, hauth, hsig, hf0, hnlt, hnb,
          howner, hfee, Function.update, hfe2, transferBal, hv0, Except.map] at hX


/-- C10 witness: on `chain0`, settling the deactivated service `2` with a
fully valid authorization (nonce `80`) reverts with
"Service not active", leaves the state untouched, and the identical
authorization succeeds after the provider reactivates the service. -/
theorem failed_settlement_consumes_nothing_witness :
    processPayment cfgX 50 2 5 100 0 100 80 ⟨5, 0, 0⟩ chain0 = .error "Service not active"
    ∧ txRun (processPayment cfgX 50 2 5 100 0 100 80 ⟨5, 0, 0⟩) chain0
        = (chain0, some "Service not active")
    ∧ ∃ c3, processPayment cfgX 50 2 5 100 0 100 80 ⟨5, 0, 0⟩ chain2 = .ok c3 :=
  failed_settlement_consumes_nothing cfgX 50 2 5 100 0 100 80 ⟨5, 0, 0⟩ chain0 chain2 3
    (by decide) (by decide) (by decide) rfl (by decide) (by decide) (by decide)
    (by decide) (by decide) rfl (by decide) (by decide) (by decide) rfl (by decide)


end X402
